import Mathlib

/-
  Verification development for the rig-docs repository: a Nextra/Next.js
  documentation site consisting of a theme configuration
  (src/theme.config.tsx), a site configuration (next config, provided as
  src/unnamed/part_000) and content documents under src/pages.

  The configuration data below is transcribed from those source files.
  The page renderer and static exporter are framework components that have
  no code in this repository; where a claim depends on them they are
  modelled from the specification (see the doc comments marked
  "Modelled from the spec").
-/

namespace RigDocs

/-- A content document, per the spec data model: identity is the path,
with frontmatter title and description and a markup body.  The body prose
is elided to its opening line; no claim depends on body bytes. -/
structure ContentDocument where
  path : String
  title : String
  description : String
  body : String
deriving DecidableEq

/-- The document authored in src/pages/docs/0_quickstart.mdx: frontmatter
title "Quickstart", description as in lines 1-4 of the file. -/
def quickstartDoc : ContentDocument :=
  { path := "docs/quickstart"
    title := "Quickstart"
    description := "This section contains the quickstart guide for Rig."
    body := "In the rapidly evolving landscape of artificial intelligence (AI), Large Language Models (LLMs) have emerged as powerful tools for building sophisticated AI applications." }

/-- One entry of the head metadata block: either a meta tag (name, content)
or a link tag (rel, href), as in theme.config.tsx lines 6-15. -/
inductive HeadEntry where
  | meta (name content : String)
  | link (rel href : String)
deriving DecidableEq

/-- An image reference as written in the logo block of theme.config.tsx:
src, alt text and the class name its scoped style selects on. -/
structure ImgRef where
  src : String
  alt : String
  className : String
deriving DecidableEq

/-- The dark-mode logo image, theme.config.tsx line 18. -/
def darkModeLogo : ImgRef :=
  { src := "/rig-dark.svg", alt := "Rig Logo", className := "dark-mode-logo" }

/-- The light-mode logo image, theme.config.tsx line 19. -/
def lightModeLogo : ImgRef :=
  { src := "/rig-light.svg", alt := "Rig Logo", className := "light-mode-logo" }

/-- The client's prefers-color-scheme report: dark, light, or no preference. -/
inductive ColorScheme where
  | dark
  | light
  | noPreference
deriving DecidableEq

/-- A media-query condition of the scoped logo style: prefers-color-scheme
dark or light. -/
inductive MediaQuery where
  | dark
  | light
deriving DecidableEq

/-- A CSS display value relevant to the logo style: the img default
(inline), none, or block. -/
inductive Display where
  | inline
  | none
  | block
deriving DecidableEq

/-- One rule of the scoped style in theme.config.tsx lines 20-37: an
optional media condition, a class selector, and the display it assigns. -/
structure CssRule where
  media : Option MediaQuery
  selector : String
  display : Display
deriving DecidableEq

/-- The scoped style of the logo block, theme.config.tsx lines 20-37, in
source order: both classes display none unconditionally; under
prefers-color-scheme dark the dark-mode-logo becomes block; under
prefers-color-scheme light the light-mode-logo becomes block. -/
def logoStyleRules : List CssRule :=
  [ { media := Option.none, selector := "dark-mode-logo", display := Display.none }
  , { media := Option.none, selector := "light-mode-logo", display := Display.none }
  , { media := some MediaQuery.dark, selector := "dark-mode-logo", display := Display.block }
  , { media := some MediaQuery.light, selector := "light-mode-logo", display := Display.block } ]

/-- Whether a rule's media condition holds for the client's scheme: an
unconditional rule always applies; a media rule applies exactly when the
client reports that scheme. -/
def ruleApplies (scheme : ColorScheme) (r : CssRule) : Bool :=
  match r.media with
  | Option.none => true
  | some MediaQuery.dark => scheme == ColorScheme.dark
  | some MediaQuery.light => scheme == ColorScheme.light

/-- The computed display of an element with class `cls` under the logo
style: CSS cascade order, the last applicable rule for the class wins,
starting from the img default display. -/
def computedDisplay (scheme : ColorScheme) (cls : String) : Display :=
  logoStyleRules.foldl
    (fun acc r => if ruleApplies scheme r && (r.selector == cls) then r.display else acc)
    Display.inline

/-- The project link block, theme.config.tsx lines 40-42. -/
structure ProjectCfg where
  link : String

/-- The chat link block, theme.config.tsx lines 43-45. -/
structure ChatCfg where
  link : String

/-- The editLink block, theme.config.tsx lines 46-48: a single content
string. -/
structure EditLinkCfg where
  content : String

/-- The feedback block, theme.config.tsx lines 49-52: a content string and
a labels string. -/
structure FeedbackCfg where
  content : String
  labels : String

/-- The rendered footer block of theme.config.tsx lines 54-74: a link to
the Playgrounds homepage with its logo image, and a copyright line whose
year is produced by new Date().getFullYear() at render time.  The year is
kept as a number; the surrounding copyright text is the constant
prefix and suffix around it. -/
structure FooterBlock where
  poweredByHref : String
  poweredByLogoSrc : String
  copyrightYear : Nat
deriving DecidableEq

/-- The footer of theme.config.tsx as a function of the render-time year:
everything but the year is constant. -/
def footerBlock (year : Nat) : FooterBlock :=
  { poweredByHref := "https://playgrounds.network"
    poweredByLogoSrc := "https://playgrounds.network/assets/PG-Logo.png"
    copyrightYear := year }

/-- The theme configuration object, following the shape of the `config`
value in theme.config.tsx.  The footer is a function of the render-time
year because the source footer evaluates new Date().getFullYear(). -/
structure DocsThemeConfig where
  head : List HeadEntry
  logo : List ImgRef
  project : ProjectCfg
  chat : ChatCfg
  editLink : EditLinkCfg
  feedback : FeedbackCfg
  docsRepositoryBase : String
  footer : Nat → FooterBlock

/-- The `config` value of src/theme.config.tsx. -/
def config : DocsThemeConfig :=
  { head :=
      [ HeadEntry.meta "viewport" "width=device-width, initial-scale=1.0"
      , HeadEntry.meta "description" "Rig Crate Documentation"
      , HeadEntry.meta "author" "0xPlaygrounds"
      , HeadEntry.meta "keywords" "Rig, Docs, 0xPlaygrounds"
      , HeadEntry.meta "robots" "index, follow"
      , HeadEntry.link "icon" "/favicon.ico" ]
    logo := [darkModeLogo, lightModeLogo]
    project := { link := "https://github.com/0xPlaygrounds/rig" }
    chat := { link := "https://discord.gg/playgrounds" }
    editLink := { content := "Edit this page on GitHub →" }
    feedback := { content := "Question? Give us feedback →", labels := "feedback" }
    docsRepositoryBase := "https://github.com/0xPlaygrounds/rig-docs"
    footer := footerBlock }

/-- The options passed to nextra(...) in the next config
(src/unnamed/part_000 lines 4-9), including the base_path entry exactly as
spelled there. -/
structure NextraOptions where
  theme : String
  themeConfig : String
  defaultShowCopyCode : Bool
  base_path : String

/-- The nextra(...) options of src/unnamed/part_000. -/
def nextraOptions : NextraOptions :=
  { theme := "nextra-theme-docs"
    themeConfig := "./theme.config.tsx"
    defaultShowCopyCode := true
    base_path := "/rig-docs" }

/-- The images block of the next config, src/unnamed/part_000 line 14. -/
structure ImagesCfg where
  unoptimized : Bool
deriving DecidableEq

/-- The config object passed to withNextra(...) in src/unnamed/part_000
lines 11-16. -/
structure NextConfig where
  output : String
  images : ImagesCfg
deriving DecidableEq

/-- The next config of src/unnamed/part_000: static export output, image
optimization disabled. -/
def nextConfig : NextConfig :=
  { output := "export", images := { unoptimized := true } }

/-- Whether the character list `p` is an initial segment of `s`. -/
def charsLead : List Char → List Char → Bool
  | [], _ => true
  | _ :: _, [] => false
  | a :: as, b :: bs => a == b && charsLead as bs

/-- Whether the character list `p` occurs contiguously inside `s`. -/
def charsHaveSub (s p : List Char) : Bool :=
  (List.range (s.length + 1)).any fun i => charsLead p (List.drop i s)

/-- Whether the string `p` is an initial segment of `s`. -/
def strHasLead (s p : String) : Bool :=
  charsLead p.toList s.toList

/-- Whether the string `p` occurs contiguously inside `s`. -/
def strHasSub (s p : String) : Bool :=
  charsHaveSub s.toList p.toList

/-- Whether a string contains a marker of any usual string-template
placeholder syntax for a named hole: a brace-delimited hole (opening
brace), a percent hole such as a percent-s, a dollar hole, or a
colon-named hole such as colon-path.  The spec does not fix a placeholder
syntax, so a template "containing a placeholder for the current page path"
must at least contain one of these markers. -/
def hasPathPlaceholder (s : String) : Bool :=
  s.toList.any (fun c => c == Char.ofNat 123 || c == Char.ofNat 125 || c == Char.ofNat 37 || c == Char.ofNat 36)
    || strHasSub s ":path"

/-- A fully resolved rendered page, the HTML-equivalent output of the
page renderer for one document.  Modelled from the spec (section 4.3): the
renderer is framework code with no source in this repository.  Per the
spec, the document's title is injected into the head metadata, the theme
head entries are emitted on every page, the body is transcluded, the
edit-link and feedback values are taken from the theme configuration with
the edit target derived from docsRepositoryBase and the current path, and
the footer is rendered from the theme configuration, which in this
repository makes it depend on the render-time year. -/
structure RenderedPage where
  outPath : String
  headTitle : String
  headEntries : List HeadEntry
  bodyHtml : String
  editLinkLabel : String
  editLinkUrl : String
  feedbackLabel : String
  footer : FooterBlock
deriving DecidableEq

/-- Modelled from the spec: the page renderer (spec section 4.3), a pure
transform of one document plus the theme configuration, with the
render-time year made an explicit input because the source footer
evaluates new Date().getFullYear(). -/
def renderPage (cfg : DocsThemeConfig) (doc : ContentDocument) (year : Nat) : RenderedPage :=
  { outPath := doc.path
    headTitle := doc.title
    headEntries := cfg.head
    bodyHtml := doc.body
    editLinkLabel := cfg.editLink.content
    editLinkUrl := cfg.docsRepositoryBase ++ "/" ++ doc.path
    feedbackLabel := cfg.feedback.content
    footer := cfg.footer year }

/-- Modelled from the spec: the static exporter (spec section 4.4) invokes
the page renderer for every content document and writes the results to an
output tree mirroring content paths; the output is the list of rendered
pages in content order. -/
def exportSite (docs : List ContentDocument) (cfg : DocsThemeConfig) (year : Nat) : List RenderedPage :=
  docs.map (fun d => renderPage cfg d year)

/-- The first meta entry with the given name in a head block, if any. -/
def findMetaContent : List HeadEntry → String → Option String
  | [], _ => Option.none
  | HeadEntry.meta n c :: rest, name =>
      if n == name then some c else findMetaContent rest name
  | HeadEntry.link _ _ :: rest, name => findMetaContent rest name

/-- The logo images the client actually sees under a given color-scheme
report: those whose computed display under the scoped style is not none. -/
def visibleLogos (cfg : DocsThemeConfig) (scheme : ColorScheme) : List ImgRef :=
  cfg.logo.filter fun i => !(computedDisplay scheme i.className == Display.none)

/-- The site-relative URL references the theme configuration contributes
to every generated page: link hrefs from the head block and the logo image
sources.  These strings are emitted verbatim into the output. -/
def themeInternalRefs (cfg : DocsThemeConfig) : List String :=
  (cfg.head.filterMap fun e =>
    match e with
    | HeadEntry.link _ href => some href
    | HeadEntry.meta _ _ => Option.none)
    ++ cfg.logo.map (fun i => i.src)

/-- Whether a URL reference is internal to the site: site-relative,
starting with a single slash (not a protocol-relative double slash). -/
def isInternalRef (s : String) : Bool :=
  strHasLead s "/" && !(strHasLead s "//")

/-- A fenced code block on a page, with an optional per-block override of
the copy-to-clipboard control. -/
structure CodeBlock where
  showCopyCodeOverride : Option Bool
deriving DecidableEq

/-- Modelled from the spec: the framework renders a copy-to-clipboard
control on a code block according to the block's own override if present,
and otherwise according to the site-wide defaultShowCopyCode option. -/
def showsCopyControl (opts : NextraOptions) (b : CodeBlock) : Bool :=
  b.showCopyCodeOverride.getD opts.defaultShowCopyCode

/-- Modelled from the spec: the static exporter writes each referenced
asset to the output, applying the build-time image transform only when
image optimization is enabled (spec sections 4.4 and 6); `optimize` stands
for that transform and `asset` for the asset's bytes. -/
def exportAsset (cfg : NextConfig) (optimize : List Nat → List Nat) (asset : List Nat) : List Nat :=
  if cfg.images.unoptimized then asset else optimize asset

/-- Every character list is an initial segment of itself. -/
lemma charsLead_self (l : List Char) : charsLead l l = true := by
  induction l with
  | nil => rfl
  | cons a as ih => simp [charsLead, ih]

/-- A character list occurs inside any list that ends with it. -/
lemma charsHaveSub_append (xs ys : List Char) : charsHaveSub (xs ++ ys) ys = true := by
  unfold charsHaveSub
  rw [List.any_eq_true]
  refine ⟨xs.length, ?_, ?_⟩
  · rw [List.mem_range, List.length_append]
    omega
  · rw [List.drop_left]
    exact charsLead_self ys

/-- A string occurs inside any string that ends with it. -/
lemma strHasSub_append (a b : String) : strHasSub (a ++ b) b = true := by
  unfold strHasSub
  have h : (a ++ b).toList = a.toList ++ b.toList := by
    simp [String.toList]
  rw [h]
  exact charsHaveSub_append a.toList b.toList

/-- Claim C1, as stated, is false: the export output is not a function of
the documents and theme configuration alone.  The footer of
theme.config.tsx evaluates new Date().getFullYear() at render time, so two
export runs over the unchanged quickstart document, one in 2024 and one in
2025, differ in the footer's copyright year. -/
theorem C1_idempotence_counterexample :
    exportSite [quickstartDoc] config 2024 ≠ exportSite [quickstartDoc] config 2025 := by
  intro h
  have h1 := congrArg (fun l : List RenderedPage => l.map fun p => p.footer.copyrightYear) h
  simp [exportSite, renderPage, config, footerBlock] at h1

/-- Claim C1, amended: for a nonempty document set, two export runs with
unchanged documents and unchanged theme configuration produce identical
output exactly when the build-time year is unchanged; the footer's
new Date().getFullYear() is the only run-dependent input. -/
theorem C1_idempotence_amended (docs : List ContentDocument) (y₁ y₂ : Nat) (h : docs ≠ []) :
    exportSite docs config y₁ = exportSite docs config y₂ ↔ y₁ = y₂ := by
  constructor
  · intro heq
    cases docs with
    | nil => exact absurd rfl h
    | cons d ds =>
        obtain ⟨h1, -⟩ :
            renderPage config d y₁ = renderPage config d y₂ ∧
              ∀ a ∈ ds, renderPage config a y₁ = renderPage config a y₂ := by
          simpa [exportSite] using heq
        simpa [renderPage, config, footerBlock] using
          congrArg (fun p : RenderedPage => p.footer.copyrightYear) h1
  · intro heq
    rw [heq]

/-- Witness for C1_idempotence_amended at the quickstart document and the
years 2024 and 2025. -/
theorem C1_idempotence_amended_witness :
    [quickstartDoc] ≠ ([] : List ContentDocument) ∧
      (exportSite [quickstartDoc] config 2024 = exportSite [quickstartDoc] config 2025 ↔
        2024 = 2025) :=
  ⟨by simp, C1_idempotence_amended [quickstartDoc] 2024 2025 (by simp)⟩

/-- Claim C2: the theme configuration contributes site-relative references
to every generated page — the favicon link of config.head and both logo
image sources — and none of them carries the configured /rig-docs base
path prefix.  In particular the favicon reference /favicon.ico is internal
and unprefixed, so a site hosted under the configured base path does not
resolve it; this contradicts the evident intent of the base_path option in
the next config (whose recognized spelling there would be basePath). -/
theorem C2_base_path_violation :
    "/favicon.ico" ∈ themeInternalRefs config ∧
      isInternalRef "/favicon.ico" = true ∧
      strHasLead "/favicon.ico" nextraOptions.base_path = false ∧
      (themeInternalRefs config).all
        (fun r => isInternalRef r && !(strHasLead r nextraOptions.base_path)) = true := by
  decide

/-- Claim C3, as stated, is false: the edit-link and feedback
configuration values of theme.config.tsx contain no placeholder of any
usual template syntax, and the rendered edit-link label on the quickstart
page does not contain that page's path. -/
theorem C3_template_counterexample :
    ¬ (hasPathPlaceholder config.editLink.content = true ∧
        hasPathPlaceholder config.feedback.content = true ∧
        strHasSub (renderPage config quickstartDoc 2025).editLinkLabel quickstartDoc.path = true) := by
  decide

/-- Claim C3, amended: the edit-link and feedback configuration values are
static label strings with no page-path placeholder, rendered identically
on every page; the page path instead reaches the edit-link target URL,
which is docsRepositoryBase with the current page's path appended and
therefore contains the path. -/
theorem C3_template_amended (doc : ContentDocument) (year : Nat) :
    (renderPage config doc year).editLinkLabel = "Edit this page on GitHub →" ∧
      (renderPage config doc year).feedbackLabel = "Question? Give us feedback →" ∧
      hasPathPlaceholder (renderPage config doc year).editLinkLabel = false ∧
      hasPathPlaceholder (renderPage config doc year).feedbackLabel = false ∧
      (renderPage config doc year).editLinkUrl =
        config.docsRepositoryBase ++ "/" ++ doc.path ∧
      strHasSub (renderPage config doc year).editLinkUrl doc.path = true :=
  ⟨rfl, rfl,
    by show hasPathPlaceholder config.editLink.content = false; decide,
    by show hasPathPlaceholder config.feedback.content = false; decide,
    rfl,
    strHasSub_append (config.docsRepositoryBase ++ "/") doc.path⟩

/-- Claim C4: the rendered page for the document at path docs/quickstart,
whose frontmatter title is Quickstart, carries exactly the head metadata
title Quickstart, in any build year. -/
theorem C4_quickstart_title (year : Nat) :
    (renderPage config quickstartDoc year).headTitle = "Quickstart" :=
  rfl

/-- Claim C5, as stated, is false: the head description meta of the
rendered quickstart page is the constant Rig Crate Documentation from
config.head, not the document's frontmatter description. -/
theorem C5_description_counterexample :
    ¬ (findMetaContent (renderPage config quickstartDoc 2025).headEntries "description" =
        some quickstartDoc.description) := by
  decide

/-- Claim C5, amended: the renderer injects each document's own title into
the head metadata, but the head description is the site-wide constant
Rig Crate Documentation hardcoded in config.head, the same for every
document, not the document's frontmatter description. -/
theorem C5_description_amended (doc : ContentDocument) (year : Nat) :
    (renderPage config doc year).headTitle = doc.title ∧
      findMetaContent (renderPage config doc year).headEntries "description" =
        some "Rig Crate Documentation" :=
  ⟨rfl, rfl⟩

/-- Claim C6: the theme head consists exactly of the viewport,
description, author, keywords and robots meta entries plus the favicon
link, in that order, and every rendered page's head carries exactly these
entries. -/
theorem C6_head_entries (doc : ContentDocument) (year : Nat) :
    config.head =
        [ HeadEntry.meta "viewport" "width=device-width, initial-scale=1.0"
        , HeadEntry.meta "description" "Rig Crate Documentation"
        , HeadEntry.meta "author" "0xPlaygrounds"
        , HeadEntry.meta "keywords" "Rig, Docs, 0xPlaygrounds"
        , HeadEntry.meta "robots" "index, follow"
        , HeadEntry.link "icon" "/favicon.ico" ] ∧
      (renderPage config doc year).headEntries = config.head :=
  ⟨rfl, rfl⟩

/-- Claim C7: the logo consists of exactly the dark-mode and light-mode
image references, and the scoped style makes the choice a function of the
client's color-scheme report at render time: under prefers-color-scheme
dark exactly the dark variant is visible, under prefers-color-scheme light
exactly the light variant.  Both images are present in the output
unconditionally; the exported bytes do not depend on the scheme. -/
theorem C7_logo_selection :
    config.logo = [darkModeLogo, lightModeLogo] ∧
      visibleLogos config ColorScheme.dark = [darkModeLogo] ∧
      visibleLogos config ColorScheme.light = [lightModeLogo] := by
  decide

/-- Claim C8: the site configuration selects static-export output and
disables image optimization, so the exporter's asset step is the identity
on asset bytes for every optimization transform. -/
theorem C8_assets_verbatim (optimize : List Nat → List Nat) (asset : List Nat) :
    nextConfig.output = "export" ∧
      nextConfig.images.unoptimized = true ∧
      exportAsset nextConfig optimize asset = asset :=
  ⟨rfl, rfl, rfl⟩

/-- Claim C9: under a client reporting neither a dark nor a light
color-scheme preference, both logo classes keep their unconditional
display none, so no logo image is visible at all. -/
theorem C9_no_preference_no_logo :
    computedDisplay ColorScheme.noPreference "dark-mode-logo" = Display.none ∧
      computedDisplay ColorScheme.noPreference "light-mode-logo" = Display.none ∧
      visibleLogos config ColorScheme.noPreference = [] := by
  decide

/-- Claim C10: defaultShowCopyCode is set to true in the nextra options,
so every code block without a per-block override shows the
copy-to-clipboard control. -/
theorem C10_copy_code_default (b : CodeBlock) (h : b.showCopyCodeOverride = Option.none) :
    showsCopyControl nextraOptions b = true := by
  simp [showsCopyControl, h, nextraOptions]

/-- Witness for C10_copy_code_default at a code block with no override. -/
theorem C10_copy_code_default_witness :
    (CodeBlock.mk Option.none).showCopyCodeOverride = Option.none ∧
      showsCopyControl nextraOptions (CodeBlock.mk Option.none) = true :=
  ⟨rfl, C10_copy_code_default (CodeBlock.mk Option.none) rfl⟩

end RigDocs
